import Mathlib

/-!
Verification of the budget-app core logic (src/budget.py) against its
natural-language specification.  Amounts are modelled as exact rationals
(`Rat`); tables as lists of typed rows; the file system as an explicit
`FileState` value (absent / unparsable / parsed), matching the app's
treatment of the two CSV files as a blob store.
-/

namespace BudgetApp

/-- Expense record: one row of the expenses table (`expenses.csv`). -/
structure ExpenseRow where
  month : String
  amount : Rat
  category : String
  planned : String
  description : String
  deriving DecidableEq

/-- Budget record: one row of the budget table (`budget.csv`). -/
structure BudgetRow where
  month : String
  paycheck : Rat
  saving1 : Rat
  saving2 : Rat
  sts : Rat
  total_saved : Rat
  fixed_expenses : Rat
  misc_budget : Rat
  deriving DecidableEq

/-- A loaded tabular file: a column header plus typed rows. -/
structure Df (ρ : Type) where
  columns : List String
  rows : List ρ

/-- State of a backing CSV file: absent, present but unparsable, or parsed. -/
inductive FileState (α : Type) where
  | absent
  | unparsable
  | parsed (df : α)

/-- Canonical budget schema (budget.py lines 53 and 55). -/
def budget_columns : List String :=
  ["Month", "Paycheck", "saving1", "saving2", "STS", "Total_Saved", "Fixed_Expenses", "Misc_Budget"]

/-- Canonical expense schema (budget.py lines 65 and 67). -/
def expense_columns : List String :=
  ["Month", "Amount", "Category", "Planned_Unplanned", "Description"]

/-- Embeds `check_budget_exists`: load the budget CSV, falling back to the
empty canonical-schema table when the file is absent or unparsable. -/
def check_budget_exists : FileState (Df BudgetRow) → Df BudgetRow
  | .parsed df => df
  | _ => ⟨budget_columns, []⟩

/-- Embeds `check_expense_exists`: load the expense CSV, falling back to the
empty canonical-schema table when the file is absent or unparsable. -/
def check_expense_exists : FileState (Df ExpenseRow) → Df ExpenseRow
  | .parsed df => df
  | _ => ⟨expense_columns, []⟩

/-- Embeds the expense-form submit handler (budget.py lines 245-249): load the
table, `pd.concat` the one-row frame onto it, and `to_csv` the whole result,
overwriting the prior file. -/
def expense_form_submit (fs : FileState (Df ExpenseRow)) (row : ExpenseRow) :
    FileState (Df ExpenseRow) :=
  let e_df := check_expense_exists fs
  FileState.parsed ⟨e_df.columns, e_df.rows ++ [row]⟩

/-- Amounts of all expense rows in a given category, in table order. -/
def catAmounts (expense_df : List ExpenseRow) (c : String) : List Rat :=
  (expense_df.filter (fun r => r.category = c)).map ExpenseRow.amount

/-- Maximum of a list of amounts (pandas `Series.max`); never asked on `[]`
by the callers below, which guard with an emptiness check first. -/
def listMax : List Rat → Rat
  | [] => 0
  | x :: xs => xs.foldl max x

/-- Mean of a list of amounts (pandas `Series.mean`); callers guard emptiness. -/
def listMean (l : List Rat) : Rat := l.sum / (l.length : Rat)

/-- The `X['Amount'].max() if not X.empty else 0` pattern of budget.py 156-162. -/
def catMax (expense_df : List ExpenseRow) (c : String) : Rat :=
  if (expense_df.filter (fun r => r.category = c)).isEmpty then 0
  else listMax (catAmounts expense_df c)

/-- The `X['Amount'].mean() if not X.empty else 0` pattern of budget.py 156-162. -/
def catMean (expense_df : List ExpenseRow) (c : String) : Rat :=
  if (expense_df.filter (fun r => r.category = c)).isEmpty then 0
  else listMean (catAmounts expense_df c)

/-- budget.py line 156: max of historical Rent amounts, 0 when no history. -/
def rent_max (expense_df : List ExpenseRow) : Rat := catMax expense_df "Rent"

/-- budget.py line 157: max of historical Subscriptions amounts. -/
def subscriptions_max (expense_df : List ExpenseRow) : Rat := catMax expense_df "Subscriptions"

/-- budget.py line 158: mean of historical Groceries amounts. -/
def groceries_avg (expense_df : List ExpenseRow) : Rat := catMean expense_df "Groceries"

/-- budget.py line 159: max of historical Utilities amounts. -/
def utilities_max (expense_df : List ExpenseRow) : Rat := catMax expense_df "Utilities"

/-- budget.py line 160: despite the `_max` name, the source computes the mean
of historical Gas amounts. -/
def gas_max (expense_df : List ExpenseRow) : Rat := catMean expense_df "Gas"

/-- budget.py line 161: mean of historical Pet Expenses amounts. -/
def pet_avg (expense_df : List ExpenseRow) : Rat := catMean expense_df "Pet Expenses"

/-- budget.py line 162: max of historical Gym Membership amounts. -/
def gym_max (expense_df : List ExpenseRow) : Rat := catMax expense_df "Gym Membership"

/-- budget.py line 169: `saving1_acct = paycheck * saving1`. -/
def saving1_acct (paycheck saving1 : Rat) : Rat := paycheck * saving1

/-- budget.py line 170: `saving2_acct = paycheck * saving2`. -/
def saving2_acct (paycheck saving2 : Rat) : Rat := paycheck * saving2

/-- budget.py line 171: `saving3_acct = paycheck * saving3`. -/
def saving3_acct (paycheck saving3 : Rat) : Rat := paycheck * saving3

/-- budget.py line 172: total saved is the sum of the three fund amounts. -/
def total_saved (paycheck saving1 saving2 saving3 : Rat) : Rat :=
  saving1_acct paycheck saving1 + saving2_acct paycheck saving2 + saving3_acct paycheck saving3

/-- budget.py line 175: the fixed budget sums exactly six statistics —
`gym_max` is computed on line 162 but not added here. -/
def fixed_budget (expense_df : List ExpenseRow) : Rat :=
  rent_max expense_df + subscriptions_max expense_df + groceries_avg expense_df
    + utilities_max expense_df + gas_max expense_df + pet_avg expense_df

/-- budget.py line 176: `misc_budget = paycheck - (total_saved + fixed_budget)`. -/
def misc_budget (paycheck saving1 saving2 saving3 : Rat) (expense_df : List ExpenseRow) : Rat :=
  paycheck - (total_saved paycheck saving1 saving2 saving3 + fixed_budget expense_df)

/-- This definition is modelled from the spec's words (section 4.3), for
comparison with `fixed_budget` above: the sum of all seven per-category
statistics, Gym Membership included. -/
def spec_fixed_budget (expense_df : List ExpenseRow) : Rat :=
  rent_max expense_df + subscriptions_max expense_df + groceries_avg expense_df
    + utilities_max expense_df + gas_max expense_df + pet_avg expense_df + gym_max expense_df

/-- A Python value appearing in a to-be-appended row: a string or a number. -/
inductive Cell where
  | str (s : String)
  | num (q : Rat)
  deriving DecidableEq

/-- The local names in scope inside the paycheck form when the submit handler
runs (budget.py lines 143-176), with the value each is bound to. -/
def paycheck_form_scope (month : String) (paycheck saving1 saving2 saving3 : Rat)
    (expense_df : List ExpenseRow) : List (String × Cell) :=
  [("saving1", .num saving1), ("saving2", .num saving2), ("saving3", .num saving3),
   ("month", .str month), ("paycheck", .num paycheck),
   ("rent_max", .num (rent_max expense_df)),
   ("subscriptions_max", .num (subscriptions_max expense_df)),
   ("groceries_avg", .num (groceries_avg expense_df)),
   ("utilities_max", .num (utilities_max expense_df)),
   ("gas_max", .num (gas_max expense_df)),
   ("pet_avg", .num (pet_avg expense_df)),
   ("gym_max", .num (gym_max expense_df)),
   ("saving1_acct", .num (saving1_acct paycheck saving1)),
   ("saving2_acct", .num (saving2_acct paycheck saving2)),
   ("saving3_acct", .num (saving3_acct paycheck saving3)),
   ("total_saved", .num (total_saved paycheck saving1 saving2 saving3)),
   ("fixed_budget", .num (fixed_budget expense_df)),
   ("misc_budget", .num (misc_budget paycheck saving1 saving2 saving3 expense_df))]

/-- Python name resolution: look a variable up in the local scope. -/
def lookup_name (scope : List (String × Cell)) (n : String) : Option Cell :=
  (scope.find? (fun x => x.1 = n)).map (fun x => x.2)

/-- budget.py line 185: the row the submit handler tries to build, as the list
of names it references in order; building it requires every name to resolve,
and `none` models the `NameError` raised when one does not. -/
def new_data_budget_row (scope : List (String × Cell)) : Option (List Cell) :=
  ["month", "paycheck", "saving1_acct", "saving2_acct", "sts_acct",
   "total_saved", "fixed_budget", "misc_budget"].mapM (lookup_name scope)

/-- C1: for every paycheck P ≥ 0 and contribution fractions in [0, 0.30], the
allocation outputs satisfy saving1 + saving2 + saving3 = total_saved and
total_saved + fixed_budget + misc_budget = P, exactly, over exact arithmetic. -/
theorem allocation_identity (paycheck saving1 saving2 saving3 : Rat)
    (expense_df : List ExpenseRow)
    (hp : 0 ≤ paycheck)
    (h1l : 0 ≤ saving1) (h1u : saving1 ≤ 3/10)
    (h2l : 0 ≤ saving2) (h2u : saving2 ≤ 3/10)
    (h3l : 0 ≤ saving3) (h3u : saving3 ≤ 3/10) :
    saving1_acct paycheck saving1 + saving2_acct paycheck saving2
        + saving3_acct paycheck saving3 = total_saved paycheck saving1 saving2 saving3
      ∧ total_saved paycheck saving1 saving2 saving3 + fixed_budget expense_df
          + misc_budget paycheck saving1 saving2 saving3 expense_df = paycheck := by
  refine ⟨rfl, ?_⟩
  simp only [misc_budget]
  ring

/-- Witness for C1 at the spec's example: paycheck 2000, fractions 0.2, 0.15,
0.10, empty expense history. -/
theorem allocation_identity_witness :
    (0:Rat) ≤ 2000 ∧ (0:Rat) ≤ 1/5 ∧ (1/5:Rat) ≤ 3/10
      ∧ (0:Rat) ≤ 3/20 ∧ (3/20:Rat) ≤ 3/10 ∧ (0:Rat) ≤ 1/10 ∧ (1/10:Rat) ≤ 3/10
      ∧ (saving1_acct 2000 (1/5) + saving2_acct 2000 (3/20) + saving3_acct 2000 (1/10)
            = total_saved 2000 (1/5) (3/20) (1/10)
          ∧ total_saved 2000 (1/5) (3/20) (1/10) + fixed_budget []
              + misc_budget 2000 (1/5) (3/20) (1/10) [] = 2000) :=
  ⟨by norm_num, by norm_num, by norm_num, by norm_num, by norm_num, by norm_num, by norm_num,
    allocation_identity 2000 (1/5) (3/20) (1/10) [] (by norm_num) (by norm_num) (by norm_num)
      (by norm_num) (by norm_num) (by norm_num) (by norm_num)⟩

/-- A one-row expense history containing only a Gym Membership expense of 50. -/
def gym_history : List ExpenseRow := [⟨"01/2024", 50, "Gym Membership", "Yes", "gym"⟩]

/-- C2 (code bug evidence): with a Gym Membership expense of 50 as the entire
history, the source's `fixed_budget` is 0 — the Gym Membership statistic is
computed (`gym_max` = 50) but never added on budget.py line 175 — while the
seven-statistic sum the spec describes is 50. -/
theorem fixed_budget_omits_gym :
    fixed_budget gym_history = 0 ∧ gym_max gym_history = 50
      ∧ spec_fixed_budget gym_history = 50 := by
  refine ⟨?_, ?_, ?_⟩ <;>
    simp [fixed_budget, spec_fixed_budget, rent_max, subscriptions_max, groceries_avg,
      utilities_max, gas_max, pet_avg, gym_max, catMax, catMean, catAmounts, listMax,
      gym_history]

/-- C3 (code bug evidence): the row built by the paycheck submit handler
references the name `sts_acct`, which is bound nowhere in the form's scope, so
constructing it fails (Python `NameError`) for every input and no Budget row is
ever appended; meanwhile the computed `total_saved` does equal the sum of the
three fund amounts. -/
theorem paycheck_submit_name_error (month : String)
    (paycheck saving1 saving2 saving3 : Rat) (expense_df : List ExpenseRow) :
    new_data_budget_row (paycheck_form_scope month paycheck saving1 saving2 saving3 expense_df)
        = none
      ∧ total_saved paycheck saving1 saving2 saving3
          = saving1_acct paycheck saving1 + saving2_acct paycheck saving2
            + saving3_acct paycheck saving3 :=
  ⟨rfl, rfl⟩

/-- C5: appending one expense row and reloading yields exactly the prior rows
followed by the new row, with the header unchanged. -/
theorem append_round_trip (fs : FileState (Df ExpenseRow)) (row : ExpenseRow) :
    (check_expense_exists (expense_form_submit fs row)).rows
        = (check_expense_exists fs).rows ++ [row]
      ∧ (check_expense_exists (expense_form_submit fs row)).columns
        = (check_expense_exists fs).columns :=
  ⟨rfl, rfl⟩

/-- C6: loading either table when its backing file is absent yields, without
error, the zero-row table with the canonical column schema. -/
theorem missing_file_empty_schema :
    check_budget_exists .absent
        = ⟨["Month", "Paycheck", "saving1", "saving2", "STS",
            "Total_Saved", "Fixed_Expenses", "Misc_Budget"], []⟩
      ∧ check_expense_exists .absent
        = ⟨["Month", "Amount", "Category", "Planned_Unplanned", "Description"], []⟩ :=
  ⟨rfl, rfl⟩

/-- The (Month, Category) group key of an expense row, as used by
`groupby(['Month', 'Category'])`. -/
def keyOf (r : ExpenseRow) : String × String := (r.month, r.category)

/-- Sum of the Amount column of a list of expense rows. -/
def sumAmounts (df : List ExpenseRow) : Rat := (df.map ExpenseRow.amount).sum

/-- Insertion step of the insertion sort below. -/
def insertSorted (le : α → α → Bool) (a : α) : List α → List α
  | [] => [a]
  | b :: l => if le a b then a :: b :: l else b :: insertSorted le a l

/-- Sorting by a boolean comparison; models pandas `sort_values` and the
sorted group keys produced by pandas `groupby`. -/
def sortBy (le : α → α → Bool) (l : List α) : List α := l.foldr (insertSorted le) []

/-- Lexicographic comparison of char lists, which is how Python and pandas
compare the "MM/YYYY" month strings. -/
def charListLT : List Char → List Char → Bool
  | [], [] => false
  | [], _ :: _ => true
  | _ :: _, [] => false
  | a :: as, b :: bs => if a < b then true else if b < a then false else charListLT as bs

/-- Lexicographic strict order on strings. -/
def strLT (a b : String) : Bool := charListLT a.toList b.toList

/-- Lexicographic order on strings (total: `a ≤ b ↔ ¬ b < a`). -/
def strLE (a b : String) : Bool := !(strLT b a)

/-- Lexicographic order on (Month, Category) keys, the order in which pandas
`groupby(['Month', 'Category'])` emits its groups. -/
def keyLE (a b : String × String) : Bool :=
  strLT a.1 b.1 || (a.1 = b.1 && strLE a.2 b.2)

/-- The distinct (Month, Category) keys of an expense table, in the sorted
order pandas `groupby` produces. -/
def groupKeys (df : List ExpenseRow) : List (String × String) :=
  sortBy keyLE ((df.map keyOf).dedup)

/-- Embeds `groupby(['Month', 'Category'])['Amount'].sum()`: one row per
distinct (Month, Category) key, holding the sum of that group's amounts. -/
def groupedSums (df : List ExpenseRow) : List ((String × String) × Rat) :=
  (groupKeys df).map (fun k => (k, sumAmounts (df.filter (fun r => keyOf r = k))))

/-- budget.py line 281: the categories treated as fixed expenses. -/
def fixed_categories : List String :=
  ["Rent", "Subscriptions", "Groceries", "Utilities", "Gas", "Pet Expenses", "Gym Membership"]

/-- budget.py line 263: the per-(Month, Category) sums used by the
"Miscellaneous Expenses" block — note no category filter is applied. -/
def month_misc_expenses (expense_summary : List ExpenseRow) :
    List ((String × String) × Rat) :=
  groupedSums expense_summary

/-- budget.py lines 282-283: the per-(Month, Category) sums restricted to the
fixed categories. -/
def month_fixed_expenses (expense_summary : List ExpenseRow) :
    List ((String × String) × Rat) :=
  (groupedSums expense_summary).filter (fun x => x.1.2 ∈ fixed_categories)

/-- budget.py line 265: `month_misc_expenses[select_month].sum()`. -/
def total_misc_expenses (expense_summary : List ExpenseRow) (select_month : String) : Rat :=
  (((month_misc_expenses expense_summary).filter
      (fun x => x.1.1 = select_month)).map (fun x => x.2)).sum

/-- budget.py line 286: `month_fixed_expenses[select_month].sum()`. -/
def total_fixed_expenses (expense_summary : List ExpenseRow) (select_month : String) : Rat :=
  (((month_fixed_expenses expense_summary).filter
      (fun x => x.1.1 = select_month)).map (fun x => x.2)).sum

lemma sumAmounts_nil : sumAmounts [] = 0 := rfl

lemma sumAmounts_cons (r : ExpenseRow) (t : List ExpenseRow) :
    sumAmounts (r :: t) = r.amount + sumAmounts t := by
  simp [sumAmounts]

/-- Splitting the amount sum of a table along any boolean condition. -/
lemma sumAmounts_split (df : List ExpenseRow) (c : ExpenseRow → Bool) :
    sumAmounts df
      = sumAmounts (df.filter c) + sumAmounts (df.filter (fun r => !(c r))) := by
  induction df with
  | nil => simp [sumAmounts]
  | cons r t ih =>
    cases hc : c r <;>
      simp only [List.filter_cons, hc, Bool.not_true, Bool.not_false, if_pos, if_neg,
        Bool.false_eq_true, not_false_eq_true, ite_true, ite_false, sumAmounts_cons, ih] <;>
      ring

/-- Summing one group term per key recovers the whole amount sum, provided the
keys are distinct and cover every row. -/
lemma groups_cover_sum (keys : List (String × String)) (df : List ExpenseRow)
    (hnd : keys.Nodup) (hcov : ∀ r ∈ df, keyOf r ∈ keys) :
    ((keys.map (fun k => sumAmounts (df.filter (fun r => keyOf r = k)))).sum) = sumAmounts df := by
  induction keys generalizing df with
  | nil =>
    cases df with
    | nil => simp [sumAmounts]
    | cons r t => exact absurd (hcov r (by simp)) (by simp)
  | cons k ks ih =>
    obtain ⟨hk, hnd'⟩ := List.nodup_cons.mp hnd
    have hterm : ∀ k' ∈ ks,
        (df.filter (fun r => !(decide (keyOf r = k)))).filter (fun r => keyOf r = k')
          = df.filter (fun r => keyOf r = k') := by
      intro k' hk'
      rw [List.filter_filter]
      apply List.filter_congr
      intro r _
      by_cases h : keyOf r = k'
      · have hne : k' ≠ k := fun he => hk (he ▸ hk')
        simp [h, hne]
      · simp [h]
    have hcov' : ∀ r ∈ df.filter (fun r => !(decide (keyOf r = k))), keyOf r ∈ ks := by
      intro r hr
      obtain ⟨hrdf, hrc⟩ := List.mem_filter.mp hr
      have hne : ¬ keyOf r = k := by simpa using hrc
      rcases List.mem_cons.mp (hcov r hrdf) with h | h
      · exact absurd h hne
      · exact h
    have hrec := ih (df.filter (fun r => !(decide (keyOf r = k)))) hnd' hcov'
    have hmap : ks.map (fun k' => sumAmounts
          ((df.filter (fun r => !(decide (keyOf r = k)))).filter (fun r => keyOf r = k')))
        = ks.map (fun k' => sumAmounts (df.filter (fun r => keyOf r = k'))) :=
      List.map_congr_left (fun k' hk' => by rw [hterm k' hk'])
    rw [hmap] at hrec
    calc ((k :: ks).map (fun k' => sumAmounts (df.filter (fun r => keyOf r = k')))).sum
        = sumAmounts (df.filter (fun r => keyOf r = k))
            + (ks.map (fun k' => sumAmounts (df.filter (fun r => keyOf r = k')))).sum := by
          simp
      _ = sumAmounts (df.filter (fun r => keyOf r = k))
            + sumAmounts (df.filter (fun r => !(decide (keyOf r = k)))) := by rw [hrec]
      _ = sumAmounts df := (sumAmounts_split df (fun r => decide (keyOf r = k))).symm

lemma insertSorted_perm (le : α → α → Bool) (a : α) (l : List α) :
    (insertSorted le a l).Perm (a :: l) := by
  induction l with
  | nil => exact List.Perm.refl _
  | cons b t ih =>
    cases h : le a b
    · simpa [insertSorted, h] using (ih.cons b).trans (List.Perm.swap a b t)
    · simp [insertSorted, h]

lemma sortBy_perm (le : α → α → Bool) (l : List α) : (sortBy le l).Perm l := by
  induction l with
  | nil => exact List.Perm.refl _
  | cons a t ih => exact (insertSorted_perm le a (sortBy le t)).trans (ih.cons a)

lemma groupKeys_nodup (df : List ExpenseRow) : (groupKeys df).Nodup :=
  ((sortBy_perm keyLE _).nodup_iff).mpr (List.nodup_dedup _)

lemma mem_groupKeys {df : List ExpenseRow} {r : ExpenseRow} (hr : r ∈ df) :
    keyOf r ∈ groupKeys df :=
  ((sortBy_perm keyLE _).mem_iff).mpr (List.mem_dedup.mpr (List.mem_map_of_mem keyOf hr))

/-- Summing the grouped sums whose key satisfies a predicate equals summing the
amounts of the rows whose key satisfies it. -/
lemma groups_filter_sum (df : List ExpenseRow) (p : String × String → Bool) :
    (((groupedSums df).filter (fun x => p x.1)).map (fun x => x.2)).sum
      = sumAmounts (df.filter (fun r => p (keyOf r))) := by
  unfold groupedSums
  rw [List.filter_map, List.map_map]
  simp only [Function.comp_def]
  have hterm : ∀ k ∈ (groupKeys df).filter (fun k => p k),
      df.filter (fun r => keyOf r = k)
        = (df.filter (fun r => p (keyOf r))).filter (fun r => keyOf r = k) := by
    intro k hkmem
    obtain ⟨-, hpk⟩ := List.mem_filter.mp hkmem
    rw [List.filter_filter]
    apply List.filter_congr
    intro r _
    by_cases h : keyOf r = k
    · simp [h, hpk]
    · simp [h]
  have hnd : ((groupKeys df).filter (fun k => p k)).Nodup := (groupKeys_nodup df).filter _
  have hcov : ∀ r ∈ df.filter (fun r => p (keyOf r)),
      keyOf r ∈ (groupKeys df).filter (fun k => p k) := by
    intro r hr
    obtain ⟨hrdf, hrp⟩ := List.mem_filter.mp hr
    exact List.mem_filter.mpr ⟨mem_groupKeys hrdf, hrp⟩
  rw [List.map_congr_left (fun k hkmem => by rw [hterm k hkmem])]
  exact groups_cover_sum _ _ hnd hcov

/-- C4 (amended): the fixed total sums exactly the month's rows whose category
is in the fixed set, while the "miscellaneous" total sums ALL of the month's
rows, every category included, so the two totals do not partition the month. -/
theorem fixed_and_misc_totals (expense_summary : List ExpenseRow) (select_month : String) :
    total_fixed_expenses expense_summary select_month
        = sumAmounts (expense_summary.filter
            (fun r => r.month = select_month ∧ r.category ∈ fixed_categories))
      ∧ total_misc_expenses expense_summary select_month
        = sumAmounts (expense_summary.filter (fun r => r.month = select_month)) := by
  constructor
  · unfold total_fixed_expenses month_fixed_expenses
    rw [List.filter_filter]
    have h := groups_filter_sum expense_summary
      (fun k => decide (k.1 = select_month) && decide (k.2 ∈ fixed_categories))
    rw [h]
    congr 1
    apply List.filter_congr
    intro r _
    by_cases h1 : r.month = select_month <;> by_cases h2 : r.category ∈ fixed_categories <;>
      simp [keyOf, h1, h2]
  · unfold total_misc_expenses month_misc_expenses
    have h := groups_filter_sum expense_summary (fun k => decide (k.1 = select_month))
    rw [h]
    rfl

/-- The two-row table showing the misc total is not the complement sum:
one Rent row (fixed category) and one Other row in the same month. -/
def partition_example : List ExpenseRow :=
  [⟨"01/2024", 100, "Rent", "Yes", "rent"⟩,
   ⟨"01/2024", 30, "Other", "No", "misc"⟩]

/-- This definition is modelled from the spec's words (section 4.2), for
comparison with `total_misc_expenses`: the sum over exactly the month's rows
whose category is NOT in the fixed set. -/
def spec_misc_total (expenses : List ExpenseRow) (month : String) : Rat :=
  sumAmounts (expenses.filter
    (fun r => r.month = month ∧ ¬ r.category ∈ fixed_categories))

/-- C4 (counterexample): on a month holding a 100 Rent expense and a 30 Other
expense, the code's miscellaneous total is 130 — the whole month, fixed
categories included — not the 30 the claim's complement reading requires. -/
theorem misc_total_not_complement :
    total_misc_expenses partition_example "01/2024" = 130
      ∧ spec_misc_total partition_example "01/2024" = 30
      ∧ total_misc_expenses partition_example "01/2024"
          ≠ spec_misc_total partition_example "01/2024" := by
  refine ⟨?_, ?_, ?_⟩ <;>
    simp [total_misc_expenses, month_misc_expenses, groupedSums, groupKeys, keyOf,
      partition_example, sortBy, insertSorted, keyLE, strLT, strLE, charListLT,
      sumAmounts, spec_misc_total, fixed_categories, List.dedup] <;>
    norm_num

/-- budget.py line 87: the expense table sorted by Month before grouping. -/
def finances_sorted (finances_df : List ExpenseRow) : List ExpenseRow :=
  sortBy (fun r s => strLE r.month s.month) finances_df

/-- budget.py line 88: `groupby(['Month','Category'])['Amount'].sum().reset_index()`
applied to the sorted table. -/
def grouped_finances (finances_df : List ExpenseRow) : List ((String × String) × Rat) :=
  groupedSums (finances_sorted finances_df)

/-- One entry of the pct-change column: pandas takes, within the rows already
seen, the nearest earlier row of the same (Month, Category) group as the
predecessor, and `fillna(0)` turns a group's first row (no predecessor) into 0. -/
def amountPctChangeAux (seen : List ((String × String) × Rat)) :
    List ((String × String) × Rat) → List Rat
  | [] => []
  | x :: rest =>
    (match ((seen.filter (fun y => y.1 = x.1)).map (fun y => y.2)).getLast? with
      | none => 0
      | some prev => (x.2 - prev) / prev) :: amountPctChangeAux (seen ++ [x]) rest

/-- budget.py line 89: the `Amount_PctChange` column, i.e.
`groupby(['Month','Category'])['Amount'].pct_change().fillna(0)`. -/
def amountPctChange (g : List ((String × String) × Rat)) : List Rat :=
  amountPctChangeAux [] g

/-- Python exception kinds relevant to the expense-summary page. -/
inductive PyErr where
  | keyError
  | indexError
  deriving DecidableEq

/-- Outcome of one budget-comparison block, as shown to the user. -/
inductive SectionMsg where
  | overBudget (amt : Rat)
  | withinBudget
  | noData
  deriving DecidableEq

/-- pandas `series[month]` on a (Month, Category)-indexed series: the month's
sub-series, or `KeyError` when the month is absent from the index. -/
def series_month_slice (g : List ((String × String) × Rat)) (m : String) :
    Except PyErr (List ((String × String) × Rat)) :=
  let s := g.filter (fun x => x.1.1 = m)
  if s.isEmpty then .error .keyError else .ok s

/-- pandas `.iloc[0]`: the first element, or `IndexError` on an empty selection. -/
def series_iloc_zero (l : List Rat) : Except PyErr Rat :=
  match l with
  | [] => .error .indexError
  | x :: _ => .ok x

/-- pandas `series[0]` on a filtered series: label-based lookup of index
label 0, or `KeyError` when no surviving row carries that label. -/
def series_label_zero (l : List (Nat × Rat)) : Except PyErr Rat :=
  match l.find? (fun x => x.1 = 0) with
  | some x => .ok x.2
  | none => .error .keyError

/-- budget.py line 268:
`budget_check[budget_check['Month'] == select_month]['Misc_Budget'][0]` —
the filtered rows keep their original positional labels, and `[0]` is a
label lookup. -/
def misc_lookup (budget_check : List BudgetRow) (m : String) : Except PyErr Rat :=
  series_label_zero
    (((budget_check.enum).filter (fun x => x.2.month = m)).map
      (fun x => (x.1, x.2.misc_budget)))

/-- budget.py line 290:
`budget_check[budget_check['Month'] == select_month]['Fixed_Expenses'].iloc[0]`. -/
def fixed_lookup (budget_check : List BudgetRow) (m : String) : Except PyErr Rat :=
  series_iloc_zero ((budget_check.filter (fun r => r.month = m)).map BudgetRow.fixed_expenses)

/-- budget.py lines 261-275: the Miscellaneous Expenses block — slice the
month's per-category sums, total them, look up the month's Misc_Budget, and
compare; a bare `except` turns EVERY failure into the informational message. -/
def misc_section (expense_summary : List ExpenseRow) (budget_check : List BudgetRow)
    (m : String) : Except PyErr SectionMsg :=
  let body : Except PyErr SectionMsg := do
    let s ← series_month_slice (month_misc_expenses expense_summary) m
    let total := (s.map (fun x => x.2)).sum
    let misc ← misc_lookup budget_check m
    if total > misc then pure (.overBudget (total - misc)) else pure .withinBudget
  match body with
  | .error _ => .ok .noData
  | r => r

/-- budget.py lines 285-299: the Fixed Expenses block — same shape, but the
handler is `except KeyError`, so only a KeyError becomes the message; any
other exception (an IndexError in particular) propagates. -/
def fixed_section (expense_summary : List ExpenseRow) (budget_check : List BudgetRow)
    (m : String) : Except PyErr SectionMsg :=
  let body : Except PyErr SectionMsg := do
    let s ← series_month_slice (month_fixed_expenses expense_summary) m
    let total := (s.map (fun x => x.2)).sum
    let fx ← fixed_lookup budget_check m
    if total > fx then pure (.overBudget (total - fx)) else pure .withinBudget
  match body with
  | .error .keyError => .ok .noData
  | r => r

/-- budget.py lines 26-31: the data behind a category trend chart —
month-category sums, restricted to the category, sorted by the Month string. -/
def time_plot_data (data : List ExpenseRow) (cat : String) :
    List ((String × String) × Rat) :=
  sortBy (fun x y => strLE x.1.1 y.1.1) ((groupedSums data).filter (fun x => x.1.2 = cat))

/-- budget.py line 308: the Historical Data page's expense view, sorted by Month. -/
def e_history (df : List ExpenseRow) : List ExpenseRow :=
  sortBy (fun r s => strLE r.month s.month) df

/-- Digits of a decimal numeral, read left to right. -/
def digitsToNat (cs : List Char) : Nat := cs.foldl (fun n c => 10 * n + (c.toNat - 48)) 0

/-- Chronological key of a "MM/YYYY" period string: the (year, month) pair. -/
def chronoKey (m : String) : Nat × Nat :=
  let cs := m.toList
  (digitsToNat ((cs.dropWhile (fun c => c ≠ '/')).drop 1),
   digitsToNat (cs.takeWhile (fun c => c ≠ '/')))

lemma pct_aux_zero (rest : List ((String × String) × Rat)) :
    ∀ seen, ((seen ++ rest).map (fun x => x.1)).Nodup →
      ∀ v ∈ amountPctChangeAux seen rest, v = 0 := by
  induction rest with
  | nil => intro seen _ v hv; simp [amountPctChangeAux] at hv
  | cons x t ih =>
    intro seen h v hv
    have hx : x.1 ∉ seen.map (fun y => y.1) := by
      rw [List.map_append] at h
      obtain ⟨-, -, hdisj⟩ := List.nodup_append.mp h
      intro hmem
      exact hdisj hmem (by simp)
    have hfilter : seen.filter (fun y => y.1 = x.1) = [] := by
      apply List.filter_eq_nil_iff.mpr
      intro y hy
      simp only [decide_eq_true_eq]
      intro he
      exact hx (he ▸ List.mem_map_of_mem (fun y => y.1) hy)
    rw [amountPctChangeAux, hfilter] at hv
    simp only [List.map_nil, List.getLast?_nil] at hv
    rcases List.mem_cons.mp hv with rfl | hv'
    · rfl
    · refine ih (seen ++ [x]) ?_ v hv'
      have he : (seen ++ [x]) ++ t = seen ++ (x :: t) := by simp
      rw [he]
      exact h

/-- C9: every value of the `Amount_PctChange` column is 0, for every expense
table — after the (Month, Category) group-by sum, each (Month, Category) pair
has exactly one aggregate row, and the first row of a pct-change group (no
predecessor) is filled with 0. -/
theorem pct_change_always_zero (finances_df : List ExpenseRow) :
    ∀ v ∈ amountPctChange (grouped_finances finances_df), v = 0 := by
  intro v hv
  refine pct_aux_zero _ [] ?_ v hv
  simp only [List.nil_append]
  have hmap : (grouped_finances finances_df).map (fun x => x.1)
      = groupKeys (finances_sorted finances_df) := by
    simp [grouped_finances, groupedSums, List.map_map, Function.comp_def]
  rw [hmap]
  exact groupKeys_nodup _

/-- A one-row expense history, used as concrete input for the C9 witness. -/
def single_history : List ExpenseRow := [⟨"01/2024", 100, "Rent", "Yes", "rent"⟩]

/-- Witness for C9: on a concrete one-row table the pct-change column is
inhabited and the theorem yields 0 for its member. -/
theorem pct_change_always_zero_witness :
    (0:Rat) ∈ amountPctChange (grouped_finances single_history) ∧ (0:Rat) = 0 :=
  ⟨by simp [amountPctChange, amountPctChangeAux, grouped_finances, finances_sorted,
      groupedSums, groupKeys, keyOf, single_history, sortBy, insertSorted, keyLE,
      strLT, strLE, charListLT, List.dedup],
    pct_change_always_zero single_history 0
      (by simp [amountPctChange, amountPctChangeAux, grouped_finances, finances_sorted,
        groupedSums, groupKeys, keyOf, single_history, sortBy, insertSorted, keyLE,
        strLT, strLE, charListLT, List.dedup])⟩

/-- An expense logged for a month that has no budget row at all. -/
def orphan_expenses : List ExpenseRow := [⟨"01/2024", 100, "Rent", "Yes", "rent"⟩]

/-- C7 (code bug evidence): with a fixed-category expense in a month that has
no Budget row, the miscellaneous block is skipped with the informational
message (its bare `except` catches the lookup failure), but the fixed block's
`.iloc[0]` on the empty budget selection raises an IndexError that its
`except KeyError` does not catch — an uncaught error, not a message. -/
theorem missing_budget_row_uncaught :
    fixed_section orphan_expenses [] "01/2024" = .error .indexError
      ∧ misc_section orphan_expenses [] "01/2024" = .ok .noData := by
  constructor <;>
    simp [fixed_section, misc_section, series_month_slice, series_iloc_zero,
      series_label_zero, misc_lookup, fixed_lookup, month_fixed_expenses,
      month_misc_expenses, groupedSums, groupKeys, keyOf, orphan_expenses, sortBy,
      insertSorted, keyLE, strLT, strLE, charListLT, sumAmounts, fixed_categories,
      List.dedup, Bind.bind, Except.bind]

/-- The budget row of the spec's worked example: FixedExpensesBudget 600,
MiscBudget 500. -/
def example_budget_row : BudgetRow := ⟨"01/2024", 2000, 400, 300, 200, 900, 600, 500⟩

/-- Fixed-category expenses summing to 650 in the example month. -/
def example_expenses : List ExpenseRow :=
  [⟨"01/2024", 500, "Rent", "Yes", "rent"⟩,
   ⟨"01/2024", 150, "Groceries", "Yes", "food"⟩]

/-- A budget table whose row for the example month is the SECOND row, so it
carries positional label 1, not 0. -/
def later_row_budget : List BudgetRow :=
  [⟨"12/2023", 1000, 200, 150, 100, 450, 300, 250⟩, example_budget_row]

/-- Every entry of `enumFrom n l` carries a positional label of at least `n`. -/
lemma enumFrom_fst_ge : ∀ (l : List BudgetRow) (n : Nat) (p : Nat × BudgetRow),
    p ∈ List.enumFrom n l → n ≤ p.1 := by
  intro l
  induction l with
  | nil => intro n p h; simp [List.enumFrom] at h
  | cons b t ih =>
    intro n p h
    rw [List.enumFrom] at h
    rcases List.mem_cons.mp h with rfl | h'
    · exact Nat.le_refl n
    · exact Nat.le_trans (Nat.le_succ n) (ih (n + 1) p h')

/-- No entry of an `enumFrom`-numbered list starting at a positive index can
satisfy the label-0 lookup of `series_label_zero`. -/
lemma misc_label_find_none (m : String) (bs : List BudgetRow) (n : Nat) (hn : 0 < n) :
    ((((List.enumFrom n bs).filter (fun x => x.2.month = m)).map
      (fun x => (x.1, x.2.misc_budget))).find? (fun x => x.1 = 0)) = none := by
  rw [List.find?_eq_none]
  intro x hx
  obtain ⟨y, hy, rfl⟩ := List.mem_map.mp hx
  obtain ⟨hymem, -⟩ := List.mem_filter.mp hy
  have hge := enumFrom_fst_ge bs n y hymem
  simp only [decide_eq_true_eq]
  omega

/-- When the first row of the budget table does not carry the selected month,
the `[0]` label lookup of budget.py line 268 raises KeyError. -/
lemma misc_lookup_later_row (b0 : BudgetRow) (bs : List BudgetRow) (m : String)
    (hne : ¬ b0.month = m) :
    misc_lookup (b0 :: bs) m = .error .keyError := by
  unfold misc_lookup series_label_zero
  simp only [List.enum, List.enumFrom, List.filter_cons, hne, decide_False,
    Bool.false_eq_true, if_neg, not_false_eq_true]
  rw [misc_label_find_none m bs 1 (by omega)]

/-- C8 (counterexample): with the matching Budget row for the selected month
the SECOND row of the budget table (MiscBudget 500) and the month's expenses
totalling 650, a matching Budget row exists and the actual total exceeds the
budgeted amount, yet the miscellaneous block returns the no-data message
rather than an over-budget flag — the `[0]` label lookup finds no label 0
among the filtered rows, and the bare `except` swallows the KeyError. -/
theorem misc_flag_skipped_for_later_row :
    (later_row_budget.filter (fun r => r.month = "01/2024")).map BudgetRow.misc_budget = [500]
      ∧ total_misc_expenses example_expenses "01/2024" = 650
      ∧ ((650:Rat) > 500)
      ∧ misc_section example_expenses later_row_budget "01/2024" = .ok .noData := by
  refine ⟨?_, ?_, by norm_num, ?_⟩
  · simp [later_row_budget, example_budget_row]
  · simp [total_misc_expenses, month_misc_expenses, groupedSums, groupKeys, keyOf,
      example_expenses, sortBy, insertSorted, keyLE, strLT, strLE, charListLT,
      sumAmounts, List.dedup]
    norm_num
  · simp [misc_section, series_month_slice, misc_lookup, series_label_zero,
      month_misc_expenses, groupedSums, groupKeys, keyOf, example_expenses,
      later_row_budget, example_budget_row, sortBy, insertSorted, keyLE, strLT, strLE,
      charListLT, sumAmounts, List.dedup, List.enum, List.enumFrom, Bind.bind, Except.bind]

/-- C8 (amended): for a non-empty budget table `b0 :: bs` and a selected month
`m`: (1) when the month has fixed-category rows and some Budget row matches,
the fixed block flags over-budget exactly when the actual fixed total exceeds
the first matching row's budgeted amount, reporting actual minus budgeted;
(2) the miscellaneous block does the same only when the matching row is the
FIRST row of the table (line 268's `[0]` is a label lookup, succeeding only
for positional label 0); (3) when the first row does not match the month, the
miscellaneous comparison is silently skipped with the no-data message, even
if a later row matches. -/
theorem over_budget_flagging_amended (expense_summary : List ExpenseRow)
    (b0 : BudgetRow) (bs : List BudgetRow) (m : String) :
    (((month_fixed_expenses expense_summary).filter
          (fun x => x.1.1 = m)).isEmpty = false →
        ∀ c0 cs, (b0 :: bs).filter (fun r => r.month = m) = c0 :: cs →
          fixed_section expense_summary (b0 :: bs) m
            = .ok (if total_fixed_expenses expense_summary m > c0.fixed_expenses
                then .overBudget (total_fixed_expenses expense_summary m - c0.fixed_expenses)
                else .withinBudget))
      ∧ (b0.month = m →
          ((month_misc_expenses expense_summary).filter
            (fun x => x.1.1 = m)).isEmpty = false →
          misc_section expense_summary (b0 :: bs) m
            = .ok (if total_misc_expenses expense_summary m > b0.misc_budget
                then .overBudget (total_misc_expenses expense_summary m - b0.misc_budget)
                else .withinBudget))
      ∧ (¬ b0.month = m →
          misc_section expense_summary (b0 :: bs) m = .ok .noData) := by
  refine ⟨?_, ?_, ?_⟩
  · intro hfslice c0 cs hfilter
    have hfx : fixed_lookup (b0 :: bs) m = .ok c0.fixed_expenses := by
      simp [fixed_lookup, hfilter, series_iloc_zero]
    unfold fixed_section series_month_slice total_fixed_expenses
    simp only [hfslice, Bool.false_eq_true, if_neg, ite_false, Bind.bind, Except.bind, hfx]
    split_ifs <;> rfl
  · intro hm hmslice
    have hms : misc_lookup (b0 :: bs) m = .ok b0.misc_budget := by
      simp [misc_lookup, series_label_zero, List.enum, List.enumFrom, hm]
    unfold misc_section series_month_slice total_misc_expenses
    simp only [hmslice, Bool.false_eq_true, if_neg, ite_false, Bind.bind, Except.bind, hms]
    split_ifs <;> rfl
  · intro hne
    have hml : misc_lookup (b0 :: bs) m = .error .keyError :=
      misc_lookup_later_row b0 bs m hne
    unfold misc_section
    cases hs : series_month_slice (month_misc_expenses expense_summary) m with
    | error e => simp [Bind.bind, Except.bind, hs]
    | ok s => simp [Bind.bind, Except.bind, hs, hml]

/-- Witness for C8 (amended) at the spec's example: the matching row is the
first (and only) budget row, budgeted fixed 600 against actual 650, and both
blocks' equations hold as the theorem states. -/
theorem over_budget_flagging_amended_witness :
    ((month_fixed_expenses example_expenses).filter
        (fun x => x.1.1 = "01/2024")).isEmpty = false
      ∧ (example_budget_row :: []).filter (fun r => r.month = "01/2024")
          = example_budget_row :: []
      ∧ example_budget_row.month = "01/2024"
      ∧ ((month_misc_expenses example_expenses).filter
          (fun x => x.1.1 = "01/2024")).isEmpty = false
      ∧ fixed_section example_expenses [example_budget_row] "01/2024"
          = .ok (if total_fixed_expenses example_expenses "01/2024"
                  > example_budget_row.fixed_expenses
              then .overBudget (total_fixed_expenses example_expenses "01/2024"
                  - example_budget_row.fixed_expenses)
              else .withinBudget)
      ∧ misc_section example_expenses [example_budget_row] "01/2024"
          = .ok (if total_misc_expenses example_expenses "01/2024"
                  > example_budget_row.misc_budget
              then .overBudget (total_misc_expenses example_expenses "01/2024"
                  - example_budget_row.misc_budget)
              else .withinBudget) := by
  have hf : ((month_fixed_expenses example_expenses).filter
      (fun x => x.1.1 = "01/2024")).isEmpty = false := by
    simp [month_fixed_expenses, groupedSums, groupKeys, keyOf, example_expenses,
      sortBy, insertSorted, keyLE, strLT, strLE, charListLT, fixed_categories, List.dedup]
  have hm : ((month_misc_expenses example_expenses).filter
      (fun x => x.1.1 = "01/2024")).isEmpty = false := by
    simp [month_misc_expenses, groupedSums, groupKeys, keyOf, example_expenses,
      sortBy, insertSorted, keyLE, strLT, strLE, charListLT, List.dedup]
  have hfilter : (example_budget_row :: []).filter (fun r => r.month = "01/2024")
      = example_budget_row :: [] := by
    simp [example_budget_row]
  exact ⟨hf, hfilter, rfl, hm,
    (over_budget_flagging_amended example_expenses example_budget_row [] "01/2024").1
      hf example_budget_row [] hfilter,
    (over_budget_flagging_amended example_expenses example_budget_row [] "01/2024").2.1
      rfl hm⟩

/-- An expense table whose months straddle a year boundary: chronologically
"02/2024" precedes "01/2025", lexicographically it follows. -/
def cross_year_example : List ExpenseRow :=
  [⟨"01/2025", 10, "Rent", "Yes", "jan"⟩,
   ⟨"02/2024", 20, "Rent", "Yes", "feb"⟩]

/-- C10: the trend-chart series, the pct-change predecessor ordering, and the
historical-data view all order months by the lexicographic order of the
"MM/YYYY" strings, and on a cross-year table that order is not chronological:
"01/2025" is emitted before "02/2024" even though 2024 < 2025. -/
theorem month_order_is_lexicographic :
    (time_plot_data cross_year_example "Rent").map (fun x => x.1.1)
        = ["01/2025", "02/2024"]
      ∧ (e_history cross_year_example).map ExpenseRow.month = ["01/2025", "02/2024"]
      ∧ (finances_sorted cross_year_example).map ExpenseRow.month = ["01/2025", "02/2024"]
      ∧ strLE "01/2025" "02/2024" = true
      ∧ chronoKey "02/2024" = (2024, 2) ∧ chronoKey "01/2025" = (2025, 1)
      ∧ (chronoKey "02/2024").1 < (chronoKey "01/2025").1 := by
  refine ⟨?_, ?_, ?_, ?_, ?_, ?_, ?_⟩ <;> decide

end BudgetApp
